import Mathlib

/-
Verification of the NetAutoTest measurement and campaign-orchestration engine.

The Lean definitions below are a shallow embedding of the Python sources:
  - src/src/tests/latency_test.py   (LatencyTest.run_test, start_server)
  - src/src/tests/iperf_wrapper.py  (IperfTest._parse_json_result, run_test, start_server)
  - src/src/tests/run_test_campaign.py (TestCampaign.run, validate_thresholds)

Machine floats are modelled as exact rationals; the single square root produced
by the standard-library sample standard deviation lives in ℝ.  Environment
interaction (sockets, subprocesses, the Mininet network) is abstracted into
explicit outcome values consumed by the embedded control flow, which is
translated statement by statement from the sources.
-/

namespace NetAutoTest

/-! ## Latency probe (latency_test.py) -/

/-- Outcome of one iteration of the sampler loop in LatencyTest.run_test
(latency_test.py lines 152-179).  `sendFail` models `sock.sendto` raising
(caught at line 175, before `packets_sent += 1`); `timeout` a
`socket.timeout` from `recvfrom`; `recvError` any other receive exception;
`shortResponse` a reply shorter than 16 bytes (line 165: counted as sent,
no sample); `recvOk rtt` a valid 16-byte reply whose computed RTT sample is
`rtt` milliseconds. -/
inductive ProbeEvent where
  | sendFail : ProbeEvent
  | timeout : ProbeEvent
  | recvError : ProbeEvent
  | shortResponse : ProbeEvent
  | recvOk : ℚ → ProbeEvent
deriving DecidableEq

/-- Counters accumulated by the sampler loop: `packets_sent`,
`packets_received` and the ordered `rtt_samples` list. -/
structure LoopState where
  packets_sent : ℕ
  packets_received : ℕ
  rtt_samples : List ℚ
deriving DecidableEq

/-- The sampler loop of LatencyTest.run_test (lines 152-179), as a function of
the per-iteration outcomes.  A sample is appended exactly when
`packets_received` is incremented (lines 170-171). -/
def probeLoop : List ProbeEvent → LoopState
  | [] => ⟨0, 0, []⟩
  | ProbeEvent.sendFail :: rest => probeLoop rest
  | ProbeEvent.timeout :: rest =>
      let s := probeLoop rest
      ⟨s.packets_sent + 1, s.packets_received, s.rtt_samples⟩
  | ProbeEvent.recvError :: rest =>
      let s := probeLoop rest
      ⟨s.packets_sent + 1, s.packets_received, s.rtt_samples⟩
  | ProbeEvent.shortResponse :: rest =>
      let s := probeLoop rest
      ⟨s.packets_sent + 1, s.packets_received, s.rtt_samples⟩
  | ProbeEvent.recvOk q :: rest =>
      let s := probeLoop rest
      ⟨s.packets_sent + 1, s.packets_received + 1, q :: s.rtt_samples⟩

/-- Python `statistics.mean`: the exact arithmetic mean (sum divided by
length; the empty case, where Python raises, is never reached by the code,
which guards with the emptiness check at line 185). -/
def pyMean (xs : List ℚ) : ℚ := xs.sum / xs.length

/-- Python `min` on a nonempty list (latency_test.py line 199). -/
def listMin : List ℚ → ℚ
  | [] => 0
  | x :: xs => xs.foldl min x

/-- Python `max` on a nonempty list (latency_test.py line 200). -/
def listMax : List ℚ → ℚ
  | [] => 0
  | x :: xs => xs.foldl max x

/-- The list comprehension `[abs(rtt_samples[i] - rtt_samples[i-1]) for i in
range(1, len(rtt_samples))]` (latency_test.py lines 206-207). -/
def consecDiffs : List ℚ → List ℚ
  | x :: y :: rest => |y - x| :: consecDiffs (y :: rest)
  | _ => []

/-- Sum of squared deviations as computed by CPython `statistics._ss`:
`total = sum((x-c)**2)` followed by the exact-arithmetic correction
`total -= sum(x-c)**2 / n`, with `c` the mean. -/
def pySS (xs : List ℚ) : ℚ :=
  (xs.map (fun x => (x - pyMean xs) ^ 2)).sum
    - ((xs.map (fun x => x - pyMean xs)).sum) ^ 2 / xs.length

/-- Python `statistics.stdev`: square root of `_ss(data) / (n - 1)`. -/
noncomputable def pyStdev (xs : List ℚ) : ℝ :=
  Real.sqrt ((pySS xs / ((xs.length : ℚ) - 1) : ℚ) : ℝ)

/-- The sample standard deviation as the spec words it: square root of the
sum of squared deviations from the mean, divided by n−1. -/
noncomputable def sampleStdDev (xs : List ℚ) : ℝ :=
  Real.sqrt ((((xs.map (fun x => (x - pyMean xs) ^ 2)).sum / ((xs.length : ℚ) - 1) : ℚ) : ℝ))

/-- LatencyResult dataclass (latency_test.py lines 18-29).  All millisecond
fields are exact rationals except `rtt_std_ms`, which carries the square
root from `statistics.stdev` and therefore lives in ℝ. -/
structure LatencyResult where
  rtt_min_ms : ℚ
  rtt_max_ms : ℚ
  rtt_mean_ms : ℚ
  rtt_std_ms : ℝ
  jitter_ms : ℚ
  packet_loss_percent : ℚ
  packets_sent : ℕ
  packets_received : ℕ
  rtt_samples : List ℚ

/-- The statistics block of LatencyTest.run_test (lines 184-229): the
empty-samples early return (lines 185-197), then min/max/mean, `stdev` when
more than one sample, the mean absolute consecutive difference as jitter,
and the loss percentage guarded by `packets_sent > 0`. -/
noncomputable def latencyStats (packets_sent packets_received : ℕ)
    (rtt_samples : List ℚ) : LatencyResult :=
  if rtt_samples = [] then
    { rtt_min_ms := 0, rtt_max_ms := 0, rtt_mean_ms := 0, rtt_std_ms := 0,
      jitter_ms := 0, packet_loss_percent := 100,
      packets_sent := packets_sent, packets_received := packets_received,
      rtt_samples := [] }
  else
    { rtt_min_ms := listMin rtt_samples,
      rtt_max_ms := listMax rtt_samples,
      rtt_mean_ms := pyMean rtt_samples,
      rtt_std_ms := if 1 < rtt_samples.length then pyStdev rtt_samples else 0,
      jitter_ms := if 1 < rtt_samples.length then pyMean (consecDiffs rtt_samples) else 0,
      packet_loss_percent :=
        if 0 < packets_sent then
          ((packets_sent : ℚ) - (packets_received : ℚ)) / (packets_sent : ℚ) * 100
        else 0,
      packets_sent := packets_sent, packets_received := packets_received,
      rtt_samples := rtt_samples }

namespace LatencyTest

/-- LatencyTest.run_test: the sampler loop followed by the statistics block,
as a function of the per-iteration environment outcomes. -/
noncomputable def run_test (events : List ProbeEvent) : LatencyResult :=
  let s := probeLoop events
  latencyStats s.packets_sent s.packets_received s.rtt_samples

/-- State of the latency echo server owned by a LatencyTest object:
`server_socket` (abstracted to an identifier) and the `running` flag. -/
structure ServerState where
  server_socket : Option ℕ
  running : Bool
deriving DecidableEq

/-- LatencyTest.start_server (latency_test.py lines 57-105), sequentially
abstracted: the guard at lines 59-61 returns with a warning when
`server_socket` is already set; otherwise the background loop binds a fresh
socket (the code sleeps 0.5s so the bind completes before return).  The
returned Bool records whether the already-started warning was emitted. -/
def start_server (st : ServerState) (fresh : ℕ) : ServerState × Bool :=
  match st.server_socket with
  | some _ => (st, true)
  | none => ({ server_socket := some fresh, running := true }, false)

end LatencyTest

/-- Number of active responders held by an optional process/socket handle. -/
def activeResponders : Option ℕ → ℕ
  | some _ => 1
  | none => 0

/-! ## Throughput driver (iperf_wrapper.py) -/

/-- Python exception classes relevant to the embedded code paths:
`RuntimeError` is the class raised by IperfTest.run_test and
`_parse_json_result`; any other incoming exception class (from the
transport, i.e. `client_host.cmd`) is collapsed into `otherError`. -/
inductive ExnTy where
  | runtimeError : ExnTy
  | otherError : ExnTy
deriving DecidableEq

/-- A raised Python exception: its class and its message string — the only
two handles a caller has for telling exceptions apart. -/
structure Exn where
  ty : ExnTy
  msg : String
deriving DecidableEq

/-- JSON values as decoded by `json.loads`.  Numbers are modelled as exact
rationals (the claims only exercise numeric and object fields; feeding a
non-numeric value to an arithmetic site raises TypeError in Python and is
outside the modelled scope, rendered here by the lookup default). -/
inductive Json where
  | num : ℚ → Json
  | str : String → Json
  | obj : List (String × Json) → Json
  | null : Json

/-- Association-list lookup inside a JSON object, first match wins (Python
dict keys are unique; first match is the value). -/
def lookupField : List (String × Json) → String → Option Json
  | [], _ => none
  | (k, v) :: rest, key => if k = key then some v else lookupField rest key

/-- Python `dict.get(key, default)` on a decoded JSON value. -/
def Json.getD (j : Json) (key : String) (d : Json) : Json :=
  match j with
  | Json.obj fields => (lookupField fields key).getD d
  | _ => d

/-- Numeric reading of a JSON value with a fallback. -/
def Json.asNum (d : ℚ) : Json → ℚ
  | Json.num q => q
  | _ => d

/-- Python `dict.get(key, 0)` at a numeric site: yields the stored number,
or the numeric default when the key is absent. -/
def Json.numD (j : Json) (key : String) (d : ℚ) : ℚ :=
  Json.asNum d (j.getD key (Json.num d))

/-- IperfResult dataclass (iperf_wrapper.py lines 16-27); numeric Python
fields are exact rationals, the protocol-specific optionals default to
`None`. -/
structure IperfResult where
  protocol : String
  duration : ℚ
  throughput_mbps : ℚ
  retransmissions : Option ℚ := none
  packet_loss : Option ℚ := none
  jitter_ms : Option ℚ := none
  bytes_sent : Option ℚ := none
  bytes_received : Option ℚ := none
deriving DecidableEq

namespace IperfTest

/-- The extraction body of IperfTest._parse_json_result (iperf_wrapper.py
lines 142-180) on successfully decoded JSON `data`: TCP reads
`end.sum_sent` / `end.sum_received`, UDP reads `end.sum`, with `.get(_, 0)`
defaults and the division by 1e6 at the bits-per-second sites. -/
def parseJsonData (data : Json) (protocol : String) (duration : ℚ) : IperfResult :=
  if protocol = "tcp" then
    let end_data := data.getD "end" (Json.obj [])
    let sum_sent := end_data.getD "sum_sent" (Json.obj [])
    let sum_received := end_data.getD "sum_received" (Json.obj [])
    { protocol := protocol, duration := duration,
      throughput_mbps := sum_received.numD "bits_per_second" 0 / 1000000,
      retransmissions := some (sum_sent.numD "retransmits" 0),
      bytes_sent := some (sum_sent.numD "bytes" 0),
      bytes_received := some (sum_received.numD "bytes" 0) }
  else
    let end_data := data.getD "end" (Json.obj [])
    let sum_data := end_data.getD "sum" (Json.obj [])
    { protocol := protocol, duration := duration,
      throughput_mbps := sum_data.numD "bits_per_second" 0 / 1000000,
      packet_loss := some (sum_data.numD "lost_percent" 0),
      jitter_ms := some (sum_data.numD "jitter_ms" 0),
      bytes_sent := some (sum_data.numD "bytes" 0),
      bytes_received := some (sum_data.numD "bytes" 0) }

/-- IperfTest._parse_json_result (lines 137-184): `json.loads` either yields
a decoded value or a JSONDecodeError with message `m`, in which case the
except-clause at lines 182-184 raises
`RuntimeError("Impossible de parser le résultat iperf3: " + m)`. -/
def parse_json_result (output : Except String Json) (protocol : String)
    (duration : ℚ) : Except Exn IperfResult :=
  match output with
  | Except.error m =>
      Except.error ⟨ExnTy.runtimeError, "Impossible de parser le résultat iperf3: " ++ m⟩
  | Except.ok data => Except.ok (parseJsonData data protocol duration)

/-- IperfTest.run_test (lines 124-135): the try-block runs
`client_host.cmd` (whose outcome is the outer `Except`, an exception `e` of
any class when the transport fails) and then the JSON parse; the
except-clause at lines 133-135 catches every exception — transport or parse
alike — and re-raises `RuntimeError("Test iperf3 échoué: " + str(e))`. -/
def run_test (cmdOutcome : Except Exn (Except String Json)) (protocol : String)
    (duration : ℚ) : Except Exn IperfResult :=
  match cmdOutcome with
  | Except.error e =>
      Except.error ⟨ExnTy.runtimeError, "Test iperf3 échoué: " ++ e.msg⟩
  | Except.ok output =>
      match parse_json_result output protocol duration with
      | Except.error e =>
          Except.error ⟨ExnTy.runtimeError, "Test iperf3 échoué: " ++ e.msg⟩
      | Except.ok r => Except.ok r

/-- IperfTest.start_server (iperf_wrapper.py lines 51-71): when
`server_process` is already set, warn and return (the Bool records the
warning); otherwise spawn a fresh server process. -/
def start_server (server_process : Option ℕ) (fresh : ℕ) : Option ℕ × Bool :=
  match server_process with
  | some p => (some p, true)
  | none => (some fresh, false)

end IperfTest

/-! ## Campaign orchestrator (run_test_campaign.py) -/

/-- Entries of the `errors` list built by TestCampaign.run and
validate_thresholds.  The constructors mirror the five distinct format
strings of run_test_campaign.py: the two phase-error messages of lines 251
and 259 (carrying the stringified exception) and the three threshold
violation messages of lines 202-222 (carrying measured value and
threshold). -/
inductive CampaignError where
  | iperfPhase : String → CampaignError
  | latencyPhase : String → CampaignError
  | latencyViolation : ℚ → ℚ → CampaignError
  | lossViolation : ℚ → ℚ → CampaignError
  | throughputViolation : ℚ → ℚ → CampaignError
deriving DecidableEq

/-- Boolean recognizers for the error-list entry shapes. -/
def CampaignError.isIperfPhase : CampaignError → Bool
  | CampaignError.iperfPhase _ => true
  | _ => false

def CampaignError.isLatencyPhase : CampaignError → Bool
  | CampaignError.latencyPhase _ => true
  | _ => false

def CampaignError.isLatencyViolation : CampaignError → Bool
  | CampaignError.latencyViolation _ _ => true
  | _ => false

def CampaignError.isLossViolation : CampaignError → Bool
  | CampaignError.lossViolation _ _ => true
  | _ => false

def CampaignError.isThroughputViolation : CampaignError → Bool
  | CampaignError.throughputViolation _ _ => true
  | _ => false

/-- The `tests.thresholds` configuration mapping: the three recognized keys,
each present or absent (run_test_campaign.py lines 194-216). -/
structure Thresholds where
  max_latency_ms : Option ℚ := none
  max_packet_loss_percent : Option ℚ := none
  min_throughput_mbps : Option ℚ := none
deriving DecidableEq

namespace TestCampaign

/-- TestCampaign.validate_thresholds (run_test_campaign.py lines 179-225):
per latency result, append a violation when `rtt_mean_ms > max_latency`
and, independently, when `packet_loss_percent > max_loss`; per iperf
result, append a violation when `throughput_mbps < min_throughput`;
missing keys default to 50, 1.0 and 10; `passed` is emptiness of the
accumulated list. -/
def validate_thresholds (iperf_results : List IperfResult)
    (latency_results : List LatencyResult) (th : Thresholds) :
    Bool × List CampaignError :=
  let max_latency := th.max_latency_ms.getD 50
  let max_loss := th.max_packet_loss_percent.getD 1
  let min_throughput := th.min_throughput_mbps.getD 10
  let errors :=
    (latency_results.flatMap (fun r =>
      (if max_latency < r.rtt_mean_ms
        then [CampaignError.latencyViolation r.rtt_mean_ms max_latency] else [])
      ++ (if max_loss < r.packet_loss_percent
        then [CampaignError.lossViolation r.packet_loss_percent max_loss] else [])))
    ++ (iperf_results.flatMap (fun r =>
      if r.throughput_mbps < min_throughput
        then [CampaignError.throughputViolation r.throughput_mbps min_throughput] else []))
  (errors.isEmpty, errors)

/-- TestCampaignResult (run_test_campaign.py lines 23-34) restricted to the
environment-independent fields; campaign_id and the timestamps are wall
clock strings outside the claims. -/
structure CampaignResult where
  iperf_results : List IperfResult
  latency_results : List LatencyResult
  thresholds : Thresholds
  passed : Bool
  errors : List CampaignError

/-- Results kept from the iperf phase: the phase output on success, the
initial `iperf_results = []` of line 240 when the phase raised. -/
def phaseResultsI : Except Exn (List IperfResult) → List IperfResult
  | Except.ok rs => rs
  | Except.error _ => []

/-- Error entries appended by the `except` of lines 250-253: exactly one per
raised iperf phase. -/
def phaseErrorI : Except Exn (List IperfResult) → List CampaignError
  | Except.ok _ => []
  | Except.error e => [CampaignError.iperfPhase e.msg]

/-- Results kept from the latency phase (lines 241, 256-261). -/
def phaseResultsL : Except Exn (List LatencyResult) → List LatencyResult
  | Except.ok rs => rs
  | Except.error _ => []

/-- Error entries appended by the `except` of lines 258-261. -/
def phaseErrorL : Except Exn (List LatencyResult) → List CampaignError
  | Except.ok _ => []
  | Except.error e => [CampaignError.latencyPhase e.msg]

/-- The body of the outer try of TestCampaign.run after a successful
network start (lines 247-289): both phases run with per-phase isolation,
thresholds are validated over whatever was collected, and the final record
carries `passed = passed and len(errors) == 0`. -/
def campaignBody (io : Except Exn (List IperfResult))
    (lo : Except Exn (List LatencyResult)) (th : Thresholds) : CampaignResult :=
  let iperf_results := phaseResultsI io
  let latency_results := phaseResultsL lo
  let v := validate_thresholds iperf_results latency_results th
  let errors := phaseErrorI io ++ phaseErrorL lo ++ v.2
  { iperf_results := iperf_results, latency_results := latency_results,
    thresholds := th, passed := v.1 && errors.isEmpty, errors := errors }

/-- The environment outcomes a single TestCampaign.run consumes: whether
`start_network()` (simulator construction, start and ping_all, lines
77-86) raises, and what each test phase would produce once the network is
up. -/
structure CampaignWorld where
  startNetwork : Except Exn Unit
  iperfPhase : Except Exn (List IperfResult)
  latencyPhase : Except Exn (List LatencyResult)
  thresholds : Thresholds

/-- Observable outcome of TestCampaign.run: either the returned
CampaignResult or the exception it lets escape, plus whether stop_network
ran (the `finally` of lines 272-274) and which phases executed. -/
structure RunOutcome where
  outcome : Except Exn CampaignResult
  teardown_ran : Bool
  iperf_phase_ran : Bool
  latency_phase_ran : Bool

/-- TestCampaign.run (run_test_campaign.py lines 227-294).  The outer `try`
has a `finally` but no `except`: when start_network raises, stop_network
still runs, then the exception propagates to the caller; when the start
succeeds, both phases execute with per-phase isolation and a CampaignResult
is returned. -/
def run (w : CampaignWorld) : RunOutcome :=
  match w.startNetwork with
  | Except.error e =>
      { outcome := Except.error e, teardown_ran := true,
        iperf_phase_ran := false, latency_phase_ran := false }
  | Except.ok _ =>
      { outcome := Except.ok (campaignBody w.iperfPhase w.latencyPhase w.thresholds),
        teardown_ran := true, iperf_phase_ran := true, latency_phase_ran := true }

end TestCampaign

/-! ## Concrete inputs used by the claims -/

/-- Sample carried by a sampler-loop event, if any: exactly the `recvOk`
events contribute a sample. -/
def recvSample : ProbeEvent → Option ℚ
  | ProbeEvent.recvOk q => some q
  | _ => none

/-- The RTT samples of the received responses, in send order — the spec-side
description of what `rtt_samples` must contain. -/
def receivedSamples (events : List ProbeEvent) : List ℚ :=
  events.filterMap recvSample

/-- The TCP fixture of tests/unit/test_iperf_wrapper.py (lines 70-84):
`end.sum_sent` with bits_per_second 1e9, bytes 1e6, retransmits 5 and
`end.sum_received` with bits_per_second 1e9, bytes 1e6. -/
def tcpFixture : Json :=
  Json.obj [("end", Json.obj
    [("sum_sent", Json.obj
      [("bits_per_second", Json.num 1000000000), ("bytes", Json.num 1000000),
       ("retransmits", Json.num 5)]),
     ("sum_received", Json.obj
      [("bits_per_second", Json.num 1000000000), ("bytes", Json.num 1000000)])])]

/-- The UDP fixture of tests/unit/test_iperf_wrapper.py (lines 98-109):
`end.sum` with bits_per_second 5e8, bytes 5e5, lost_percent 0.5,
jitter_ms 2.5. -/
def udpFixture : Json :=
  Json.obj [("end", Json.obj
    [("sum", Json.obj
      [("bits_per_second", Json.num 500000000), ("bytes", Json.num 500000),
       ("lost_percent", Json.num (1 / 2)), ("jitter_ms", Json.num (5 / 2))])])]

/-- A network-start failure, as raised out of start_network. -/
def netStartExn : Exn := ⟨ExnTy.runtimeError, "Network start failed"⟩

/-- A campaign world whose network acquisition fails. -/
def netFailWorld : TestCampaign.CampaignWorld :=
  ⟨Except.error netStartExn, Except.ok [], Except.ok [], {}⟩

/-- An exception raised inside the iperf phase. -/
def iperfBoom : Exn := ⟨ExnTy.otherError, "iperf3: unable to connect to server"⟩

/-- A concrete latency result used to populate a successful latency phase. -/
def sampleLatencyResult : LatencyResult :=
  ⟨1, 2, 3 / 2, 0, 1, 20, 5, 4, [1, 2, 1, 2]⟩

/-- A campaign world where the network starts, the iperf phase raises, and
the latency phase succeeds with one result. -/
def iperfFailWorld : TestCampaign.CampaignWorld :=
  ⟨Except.ok (), Except.error iperfBoom, Except.ok [sampleLatencyResult], {}⟩

/-! ## Helper lemmas -/

/-- Loop invariant of the sampler: samples count the receives, receives never
exceed sends, and the sample list is exactly the received RTTs in send
order. -/
lemma probeLoop_invariant (events : List ProbeEvent) :
    (probeLoop events).rtt_samples.length = (probeLoop events).packets_received ∧
    (probeLoop events).packets_received ≤ (probeLoop events).packets_sent ∧
    (probeLoop events).rtt_samples = receivedSamples events := by
  induction events with
  | nil => exact ⟨rfl, Nat.le_refl 0, rfl⟩
  | cons e rest ih =>
    obtain ⟨h1, h2, h3⟩ := ih
    cases e with
    | sendFail => exact ⟨h1, h2, h3⟩
    | timeout => exact ⟨h1, Nat.le_succ_of_le h2, h3⟩
    | recvError => exact ⟨h1, Nat.le_succ_of_le h2, h3⟩
    | shortResponse => exact ⟨h1, Nat.le_succ_of_le h2, h3⟩
    | recvOk q =>
      refine ⟨?_, Nat.succ_le_succ h2, ?_⟩
      · simpa [probeLoop] using h1
      · simpa [probeLoop, receivedSamples, recvSample] using h3

/-- run_test unfolded to the statistics of the loop state. -/
lemma run_test_eq (events : List ProbeEvent) :
    LatencyTest.run_test events =
      latencyStats (probeLoop events).packets_sent (probeLoop events).packets_received
        (probeLoop events).rtt_samples := rfl

/-- The field pass-throughs of the statistics block: counters and samples
are returned unchanged on both branches. -/
lemma latencyStats_counters (sent recv : ℕ) (xs : List ℚ) :
    (latencyStats sent recv xs).packets_sent = sent ∧
    (latencyStats sent recv xs).packets_received = recv ∧
    (latencyStats sent recv xs).rtt_samples = xs := by
  unfold latencyStats
  split
  · next h => exact ⟨rfl, rfl, h.symm⟩
  · exact ⟨rfl, rfl, rfl⟩

/-- The list comprehension of consecutive differences agrees with the
zip-with-tail description. -/
lemma consecDiffs_zip (xs : List ℚ) :
    consecDiffs xs = (xs.zip xs.tail).map (fun p => |p.2 - p.1|) := by
  induction xs with
  | nil => rfl
  | cons x t ih =>
    cases t with
    | nil => rfl
    | cons y r => simpa [consecDiffs] using ih

/-- Every consecutive absolute difference is nonnegative. -/
lemma consecDiffs_nonneg (xs : List ℚ) : ∀ y ∈ consecDiffs xs, 0 ≤ y := by
  induction xs with
  | nil => simp [consecDiffs]
  | cons x t ih =>
    cases t with
    | nil => simp [consecDiffs]
    | cons y r =>
      intro z hz
      rcases (by simpa [consecDiffs] using hz : z = |y - x| ∨ z ∈ consecDiffs (y :: r)) with
        h | h
      · exact h ▸ abs_nonneg _
      · exact ih z h

/-- The mean of a list of nonnegative rationals is nonnegative. -/
lemma pyMean_nonneg (xs : List ℚ) (h : ∀ y ∈ xs, 0 ≤ y) : 0 ≤ pyMean xs :=
  div_nonneg (List.sum_nonneg h) (Nat.cast_nonneg _)

/-- Summing `x - c` over a list subtracts `length * c` from the sum. -/
lemma sum_map_sub_const (xs : List ℚ) (c : ℚ) :
    (xs.map (fun x => x - c)).sum = xs.sum - xs.length * c := by
  induction xs with
  | nil => simp
  | cons a t ih =>
    simp only [List.map_cons, List.sum_cons, ih, List.length_cons]
    push_cast
    ring

/-- Deviations from the exact mean sum to zero on a nonempty list. -/
lemma sum_map_center (xs : List ℚ) (h : xs ≠ []) :
    (xs.map (fun x => x - pyMean xs)).sum = 0 := by
  have hn : (xs.length : ℚ) ≠ 0 := by
    exact_mod_cast Nat.pos_iff_ne_zero.mp (List.length_pos.mpr h)
  rw [sum_map_sub_const, pyMean]
  field_simp

/-- CPython's corrected sum of squares equals the plain sum of squared
deviations: the correction term vanishes in exact arithmetic. -/
lemma pySS_eq (xs : List ℚ) :
    pySS xs = (xs.map (fun x => (x - pyMean xs) ^ 2)).sum := by
  rcases eq_or_ne xs [] with h | h
  · subst h; simp [pySS]
  · unfold pySS
    rw [sum_map_center xs h]
    simp

/-- Python `statistics.stdev` computes exactly the textbook sample standard
deviation with the n−1 divisor. -/
lemma pyStdev_eq (xs : List ℚ) : pyStdev xs = sampleStdDev xs := by
  unfold pyStdev sampleStdDev
  rw [pySS_eq]

/-! ## Claims -/

/-- Unfolding of the object lookup on a literal object. -/
lemma Json.getD_obj (fields : List (String × Json)) (key : String) (d : Json) :
    Json.getD (Json.obj fields) key d = (lookupField fields key).getD d := rfl

/-- Numeric reading of a literal number. -/
lemma Json.asNum_num (d q : ℚ) : Json.asNum d (Json.num q) = q := rfl

/-- The latency half of the accumulated violation list: counting it by
entry shape matches counting the latency results breaching each
threshold, and it contains no other entry shapes. -/
lemma latPart_counts (lr : List LatencyResult) (a b : ℚ) :
    ((lr.flatMap (fun r =>
      (if a < r.rtt_mean_ms then [CampaignError.latencyViolation r.rtt_mean_ms a] else [])
      ++ (if b < r.packet_loss_percent
        then [CampaignError.lossViolation r.packet_loss_percent b] else []))).countP
          CampaignError.isLatencyViolation
        = lr.countP (fun r => decide (a < r.rtt_mean_ms))) ∧
    ((lr.flatMap (fun r =>
      (if a < r.rtt_mean_ms then [CampaignError.latencyViolation r.rtt_mean_ms a] else [])
      ++ (if b < r.packet_loss_percent
        then [CampaignError.lossViolation r.packet_loss_percent b] else []))).countP
          CampaignError.isLossViolation
        = lr.countP (fun r => decide (b < r.packet_loss_percent))) ∧
    ((lr.flatMap (fun r =>
      (if a < r.rtt_mean_ms then [CampaignError.latencyViolation r.rtt_mean_ms a] else [])
      ++ (if b < r.packet_loss_percent
        then [CampaignError.lossViolation r.packet_loss_percent b] else []))).countP
          CampaignError.isThroughputViolation = 0) ∧
    ((lr.flatMap (fun r =>
      (if a < r.rtt_mean_ms then [CampaignError.latencyViolation r.rtt_mean_ms a] else [])
      ++ (if b < r.packet_loss_percent
        then [CampaignError.lossViolation r.packet_loss_percent b] else []))).countP
          CampaignError.isIperfPhase = 0) ∧
    ((lr.flatMap (fun r =>
      (if a < r.rtt_mean_ms then [CampaignError.latencyViolation r.rtt_mean_ms a] else [])
      ++ (if b < r.packet_loss_percent
        then [CampaignError.lossViolation r.packet_loss_percent b] else []))).countP
          CampaignError.isLatencyPhase = 0) := by
  induction lr with
  | nil => simp
  | cons r t ih =>
    obtain ⟨i1, i2, i3, i4, i5⟩ := ih
    by_cases h1 : a < r.rtt_mean_ms <;> by_cases h2 : b < r.packet_loss_percent <;>
      simp [List.flatMap_cons, List.countP_append, List.countP_cons, h1, h2, i1, i2, i3, i4, i5,
        CampaignError.isLatencyViolation, CampaignError.isLossViolation,
        CampaignError.isThroughputViolation, CampaignError.isIperfPhase,
        CampaignError.isLatencyPhase]

/-- The throughput half of the accumulated violation list: its count by
entry shape matches the iperf results below threshold, with no other
shapes present. -/
lemma thrPart_counts (ir : List IperfResult) (c : ℚ) :
    ((ir.flatMap (fun r =>
      if r.throughput_mbps < c
        then [CampaignError.throughputViolation r.throughput_mbps c] else [])).countP
          CampaignError.isThroughputViolation
        = ir.countP (fun r => decide (r.throughput_mbps < c))) ∧
    ((ir.flatMap (fun r =>
      if r.throughput_mbps < c
        then [CampaignError.throughputViolation r.throughput_mbps c] else [])).countP
          CampaignError.isLatencyViolation = 0) ∧
    ((ir.flatMap (fun r =>
      if r.throughput_mbps < c
        then [CampaignError.throughputViolation r.throughput_mbps c] else [])).countP
          CampaignError.isLossViolation = 0) ∧
    ((ir.flatMap (fun r =>
      if r.throughput_mbps < c
        then [CampaignError.throughputViolation r.throughput_mbps c] else [])).countP
          CampaignError.isIperfPhase = 0) ∧
    ((ir.flatMap (fun r =>
      if r.throughput_mbps < c
        then [CampaignError.throughputViolation r.throughput_mbps c] else [])).countP
          CampaignError.isLatencyPhase = 0) := by
  induction ir with
  | nil => simp
  | cons r t ih =>
    obtain ⟨i1, i2, i3, i4, i5⟩ := ih
    by_cases h1 : r.throughput_mbps < c <;>
      simp [List.flatMap_cons, List.countP_append, List.countP_cons, h1, i1, i2, i3, i4, i5,
        CampaignError.isLatencyViolation, CampaignError.isLossViolation,
        CampaignError.isThroughputViolation, CampaignError.isIperfPhase,
        CampaignError.isLatencyPhase]

/-- Shape counts over the whole validate_thresholds output. -/
lemma validate_counts (ir : List IperfResult) (lr : List LatencyResult) (th : Thresholds) :
    ((TestCampaign.validate_thresholds ir lr th).2.countP CampaignError.isLatencyViolation
      = lr.countP (fun r => decide (th.max_latency_ms.getD 50 < r.rtt_mean_ms))) ∧
    ((TestCampaign.validate_thresholds ir lr th).2.countP CampaignError.isLossViolation
      = lr.countP (fun r => decide (th.max_packet_loss_percent.getD 1 < r.packet_loss_percent))) ∧
    ((TestCampaign.validate_thresholds ir lr th).2.countP CampaignError.isThroughputViolation
      = ir.countP (fun r => decide (r.throughput_mbps < th.min_throughput_mbps.getD 10))) ∧
    ((TestCampaign.validate_thresholds ir lr th).2.countP CampaignError.isIperfPhase = 0) ∧
    ((TestCampaign.validate_thresholds ir lr th).2.countP CampaignError.isLatencyPhase = 0) := by
  obtain ⟨l1, l2, l3, l4, l5⟩ :=
    latPart_counts lr (th.max_latency_ms.getD 50) (th.max_packet_loss_percent.getD 1)
  obtain ⟨t1, t2, t3, t4, t5⟩ := thrPart_counts ir (th.min_throughput_mbps.getD 10)
  unfold TestCampaign.validate_thresholds
  simp only [List.countP_append]
  exact ⟨by rw [l1, t2, Nat.add_zero], by rw [l2, t3, Nat.add_zero],
    by rw [l3, t1, Nat.zero_add], by rw [l4, t4, Nat.add_zero],
    by rw [l5, t5, Nat.add_zero]⟩

/-- The Bool returned by validate_thresholds is the emptiness of its
violation list. -/
lemma validate_fst (ir : List IperfResult) (lr : List LatencyResult) (th : Thresholds) :
    (TestCampaign.validate_thresholds ir lr th).1
      = (TestCampaign.validate_thresholds ir lr th).2.isEmpty := rfl

/-- Claim C10: every LatencyResult produced by run_test satisfies
`len(rtt_samples) = packets_received` and `packets_received ≤ packets_sent`;
the samples are exactly the received RTTs, in send order. -/
theorem claim_C10 (events : List ProbeEvent) :
    (LatencyTest.run_test events).rtt_samples.length
      = (LatencyTest.run_test events).packets_received ∧
    (LatencyTest.run_test events).packets_received
      ≤ (LatencyTest.run_test events).packets_sent ∧
    (LatencyTest.run_test events).rtt_samples = receivedSamples events := by
  obtain ⟨h1, h2, h3⟩ := probeLoop_invariant events
  obtain ⟨c1, c2, c3⟩ :=
    latencyStats_counters (probeLoop events).packets_sent
      (probeLoop events).packets_received (probeLoop events).rtt_samples
  rw [run_test_eq, c1, c2, c3]
  exact ⟨h1, h2, h3⟩

/-- Claim C7: a latency run that receives zero usable responses returns a
result (rather than raising) with all RTT and jitter statistics equal to 0
and packet_loss_percent equal to 100. -/
theorem claim_C7 (events : List ProbeEvent)
    (h : (LatencyTest.run_test events).packets_received = 0) :
    (LatencyTest.run_test events).rtt_min_ms = 0 ∧
    (LatencyTest.run_test events).rtt_max_ms = 0 ∧
    (LatencyTest.run_test events).rtt_mean_ms = 0 ∧
    (LatencyTest.run_test events).rtt_std_ms = 0 ∧
    (LatencyTest.run_test events).jitter_ms = 0 ∧
    (LatencyTest.run_test events).packet_loss_percent = 100 := by
  obtain ⟨h1, _, _⟩ := probeLoop_invariant events
  obtain ⟨_, c2, _⟩ :=
    latencyStats_counters (probeLoop events).packets_sent
      (probeLoop events).packets_received (probeLoop events).rtt_samples
  have hrecv : (probeLoop events).packets_received = 0 := by
    rw [run_test_eq, c2] at h; exact h
  have hsamp : (probeLoop events).rtt_samples = [] :=
    List.length_eq_zero.mp (by rw [h1, hrecv])
  rw [run_test_eq, hsamp]
  simp [latencyStats]

/-- Witness for C7 at the concrete run with no iterations. -/
theorem claim_C7_witness :
    (LatencyTest.run_test []).packets_received = 0 ∧
    ((LatencyTest.run_test []).rtt_min_ms = 0 ∧
    (LatencyTest.run_test []).rtt_max_ms = 0 ∧
    (LatencyTest.run_test []).rtt_mean_ms = 0 ∧
    (LatencyTest.run_test []).rtt_std_ms = 0 ∧
    (LatencyTest.run_test []).jitter_ms = 0 ∧
    (LatencyTest.run_test []).packet_loss_percent = 100) :=
  ⟨rfl, claim_C7 [] rfl⟩

/-- Counterexample to C3 as stated: with zero packets sent the code takes
the empty-samples early return and reports 100 percent loss, not the 0 the
claim requires for N = 0. -/
theorem claim_C3_counterexample :
    (LatencyTest.run_test []).packets_sent = 0 ∧
    (LatencyTest.run_test []).packet_loss_percent = 100 ∧
    (LatencyTest.run_test []).packet_loss_percent ≠ 0 :=
  ⟨rfl, rfl, by decide⟩

/-- Claim C3 as amended: packet_loss_percent = (N − R)/N × 100 whenever
N > 0, and packet_loss_percent = 100 (not 0) when N = 0, because the
empty-samples early return fires before the `sent = 0` guard can. -/
theorem claim_C3 (events : List ProbeEvent) :
    (0 < (LatencyTest.run_test events).packets_sent →
      (LatencyTest.run_test events).packet_loss_percent =
        (((LatencyTest.run_test events).packets_sent : ℚ)
            - ((LatencyTest.run_test events).packets_received : ℚ))
          / ((LatencyTest.run_test events).packets_sent : ℚ) * 100) ∧
    ((LatencyTest.run_test events).packets_sent = 0 →
      (LatencyTest.run_test events).packet_loss_percent = 100) := by
  obtain ⟨h1, h2, _⟩ := probeLoop_invariant events
  obtain ⟨c1, c2, _⟩ :=
    latencyStats_counters (probeLoop events).packets_sent
      (probeLoop events).packets_received (probeLoop events).rtt_samples
  rw [run_test_eq, c1, c2]
  rcases eq_or_ne (probeLoop events).rtt_samples [] with hs | hs
  · have hrecv : (probeLoop events).packets_received = 0 := by
      rw [← h1, hs]; rfl
    constructor
    · intro hpos
      have hn : ((probeLoop events).packets_sent : ℚ) ≠ 0 := by
        exact_mod_cast Nat.pos_iff_ne_zero.mp hpos
      rw [hs]
      simp only [latencyStats, if_pos rfl, hrecv]
      field_simp
    · intro _
      rw [hs]
      simp [latencyStats]
  · have hrecv : 0 < (probeLoop events).packets_received := by
      rw [← h1]
      exact List.length_pos.mpr hs
    have hsent : 0 < (probeLoop events).packets_sent := lt_of_lt_of_le hrecv h2
    constructor
    · intro _
      unfold latencyStats
      rw [if_neg hs]
      simp [hsent]
    · intro h0
      exact absurd h0 (Nat.pos_iff_ne_zero.mp hsent)

/-- Witness for the amended C3: the N > 0 case at a run with two sends and
one receive, and the N = 0 case at a run whose only send attempt fails. -/
theorem claim_C3_witness :
    (0 < (LatencyTest.run_test [ProbeEvent.recvOk 5, ProbeEvent.timeout]).packets_sent ∧
     (LatencyTest.run_test [ProbeEvent.recvOk 5, ProbeEvent.timeout]).packet_loss_percent =
      (((LatencyTest.run_test [ProbeEvent.recvOk 5, ProbeEvent.timeout]).packets_sent : ℚ)
          - ((LatencyTest.run_test [ProbeEvent.recvOk 5, ProbeEvent.timeout]).packets_received : ℚ))
        / ((LatencyTest.run_test [ProbeEvent.recvOk 5, ProbeEvent.timeout]).packets_sent : ℚ)
        * 100) ∧
    ((LatencyTest.run_test [ProbeEvent.sendFail]).packets_sent = 0 ∧
     (LatencyTest.run_test [ProbeEvent.sendFail]).packet_loss_percent = 100) :=
  ⟨⟨by decide, (claim_C3 [ProbeEvent.recvOk 5, ProbeEvent.timeout]).1 (by decide)⟩,
   ⟨by decide, (claim_C3 [ProbeEvent.sendFail]).2 (by decide)⟩⟩

/-- Claim C8: rtt_std_ms is the sample standard deviation (n−1 divisor) of
the samples when there are at least two of them and 0 otherwise; jitter_ms
is the mean absolute difference of consecutive samples when there are at
least two and 0 otherwise; jitter_ms is never negative. -/
theorem claim_C8 (events : List ProbeEvent) :
    ((LatencyTest.run_test events).rtt_std_ms =
      if 2 ≤ (LatencyTest.run_test events).rtt_samples.length
      then sampleStdDev (LatencyTest.run_test events).rtt_samples else 0) ∧
    ((LatencyTest.run_test events).jitter_ms =
      if 2 ≤ (LatencyTest.run_test events).rtt_samples.length
      then pyMean (((LatencyTest.run_test events).rtt_samples.zip
          (LatencyTest.run_test events).rtt_samples.tail).map (fun p => |p.2 - p.1|))
      else 0) ∧
    0 ≤ (LatencyTest.run_test events).jitter_ms := by
  obtain ⟨_, _, c3⟩ :=
    latencyStats_counters (probeLoop events).packets_sent
      (probeLoop events).packets_received (probeLoop events).rtt_samples
  rw [run_test_eq, c3]
  rcases eq_or_ne (probeLoop events).rtt_samples [] with hs | hs
  · rw [hs]
    simp [latencyStats]
  · unfold latencyStats
    rw [if_neg hs]
    by_cases hlen : 2 ≤ (probeLoop events).rtt_samples.length
    · have hlt : 1 < (probeLoop events).rtt_samples.length := hlen
      refine ⟨?_, ?_, ?_⟩
      · simp [hlt, hlen, pyStdev_eq]
      · simp [hlt, hlen, consecDiffs_zip]
      · simp only [hlt, if_true]
        exact pyMean_nonneg _ (consecDiffs_nonneg _)
    · have hlt : ¬ 1 < (probeLoop events).rtt_samples.length := hlen
      simp [hlt, hlen]

/-- Claim C2: the structured TCP fixture (sum_sent with bits_per_second 1e9
and retransmits 5) parses to throughput 1000 Mbps and 5 retransmissions,
the structured UDP fixture parses to 500 Mbps, 0.5 percent loss and 2.5 ms
jitter; in general TCP throughput is the received-side bits-per-second over
1e6 and retransmissions is the sent-side counter defaulting to 0. -/
theorem claim_C2 :
    IperfTest.parseJsonData tcpFixture "tcp" 60 =
      { protocol := "tcp", duration := 60, throughput_mbps := 1000,
        retransmissions := some 5, bytes_sent := some 1000000,
        bytes_received := some 1000000 } ∧
    IperfTest.parseJsonData udpFixture "udp" 60 =
      { protocol := "udp", duration := 60, throughput_mbps := 500,
        packet_loss := some (1 / 2), jitter_ms := some (5 / 2),
        bytes_sent := some 500000, bytes_received := some 500000 } ∧
    (∀ (data : Json) (dur : ℚ),
      (IperfTest.parseJsonData data "tcp" dur).throughput_mbps =
        ((data.getD "end" (Json.obj [])).getD "sum_received" (Json.obj [])).numD
          "bits_per_second" 0 / 1000000 ∧
      (IperfTest.parseJsonData data "tcp" dur).retransmissions =
        some (((data.getD "end" (Json.obj [])).getD "sum_sent" (Json.obj [])).numD
          "retransmits" 0)) := by
  refine ⟨?_, ?_, ?_⟩
  · simp [IperfTest.parseJsonData, tcpFixture, Json.getD_obj, Json.numD, Json.asNum_num,
      lookupField]
    norm_num
  · simp [IperfTest.parseJsonData, udpFixture, Json.getD_obj, Json.numD, Json.asNum_num,
      lookupField]
    norm_num
  · intro data dur
    exact ⟨rfl, rfl⟩

/-- Counterexample to C4 as stated: a transport failure whose message text
happens to carry the parse-error wording raises the very same exception —
same class, same message — as a genuine parse failure of the same
invocation, so no caller can tell the two apart by type or tag. -/
theorem claim_C4_counterexample :
    IperfTest.run_test
        (Except.error
          ⟨ExnTy.otherError, "Impossible de parser le résultat iperf3: Expecting value"⟩)
        "tcp" 60
      = IperfTest.run_test (Except.ok (Except.error "Expecting value")) "tcp" 60 := rfl

/-- Claim C4 as amended: a parse failure raises RuntimeError whose message
carries the fixed prefix "Test iperf3 échoué: Impossible de parser le
résultat iperf3: "; but run_test wraps transport failures in a RuntimeError
with the same outer prefix, so the two kinds are separated only by message
text, not by exception type or a structured tag. -/
theorem claim_C4 (m : String) (protocol : String) (duration : ℚ) (e : Exn) :
    IperfTest.run_test (Except.ok (Except.error m)) protocol duration =
      Except.error ⟨ExnTy.runtimeError,
        "Test iperf3 échoué: " ++ ("Impossible de parser le résultat iperf3: " ++ m)⟩ ∧
    IperfTest.run_test (Except.error e) protocol duration =
      Except.error ⟨ExnTy.runtimeError, "Test iperf3 échoué: " ++ e.msg⟩ :=
  ⟨rfl, rfl⟩

/-- Claim C9: starting an already-started responder (iperf server process
or latency echo server) is a warning-emitting no-op, leaving exactly the
one responder created by the first call. -/
theorem claim_C9 (f1 f2 : ℕ) :
    IperfTest.start_server none f1 = (some f1, false) ∧
    IperfTest.start_server (IperfTest.start_server none f1).1 f2
      = ((IperfTest.start_server none f1).1, true) ∧
    activeResponders (IperfTest.start_server (IperfTest.start_server none f1).1 f2).1 = 1 ∧
    LatencyTest.start_server ⟨none, false⟩ f1 = (⟨some f1, true⟩, false) ∧
    LatencyTest.start_server (LatencyTest.start_server ⟨none, false⟩ f1).1 f2
      = ((LatencyTest.start_server ⟨none, false⟩ f1).1, true) ∧
    activeResponders
      (LatencyTest.start_server (LatencyTest.start_server ⟨none, false⟩ f1).1 f2).1.server_socket
        = 1 :=
  ⟨rfl, rfl, rfl, rfl, rfl, rfl⟩

/-- Counterexample to C1 as stated: in a world whose network start raises,
run() lets the exception escape instead of returning a CampaignResult with
the error recorded. -/
theorem claim_C1_counterexample :
    (TestCampaign.run netFailWorld).outcome = Except.error netStartExn := rfl

/-- Claim C1 as amended: when acquiring/starting the network fails, the
teardown still runs (the finally block) but run() propagates the network
exception to its caller and returns no CampaignResult; neither test phase
executes.  Only failures raised inside the test phases after a successful
start are caught and recorded. -/
theorem claim_C1 (w : TestCampaign.CampaignWorld) (e : Exn)
    (h : w.startNetwork = Except.error e) :
    (TestCampaign.run w).outcome = Except.error e ∧
    (TestCampaign.run w).teardown_ran = true ∧
    (TestCampaign.run w).iperf_phase_ran = false ∧
    (TestCampaign.run w).latency_phase_ran = false := by
  unfold TestCampaign.run
  rw [h]
  exact ⟨rfl, rfl, rfl, rfl⟩

/-- Witness for the amended C1 at the concrete failing world. -/
theorem claim_C1_witness :
    netFailWorld.startNetwork = Except.error netStartExn ∧
    ((TestCampaign.run netFailWorld).outcome = Except.error netStartExn ∧
     (TestCampaign.run netFailWorld).teardown_ran = true ∧
     (TestCampaign.run netFailWorld).iperf_phase_ran = false ∧
     (TestCampaign.run netFailWorld).latency_phase_ran = false) :=
  ⟨rfl, claim_C1 netFailWorld netStartExn rfl⟩

/-- Claim C5: stop_network runs on every exit path of run(); and when the
network starts, the iperf phase raises and the latency phase succeeds, the
latency phase still executes, run() returns a CampaignResult whose errors
hold exactly one iperf-phase entry, and the latency results are present. -/
theorem claim_C5 (w : TestCampaign.CampaignWorld) (e : Exn) (lrs : List LatencyResult) :
    (TestCampaign.run w).teardown_ran = true ∧
    (w.startNetwork = Except.ok () → w.iperfPhase = Except.error e →
      w.latencyPhase = Except.ok lrs →
      (TestCampaign.run w).latency_phase_ran = true ∧
      ∃ r : TestCampaign.CampaignResult,
        (TestCampaign.run w).outcome = Except.ok r ∧
        r.errors.countP CampaignError.isIperfPhase = 1 ∧
        r.latency_results = lrs) := by
  obtain ⟨sn, io, lo, th⟩ := w
  constructor
  · cases sn <;> rfl
  · intro h1 h2 h3
    simp only at h1 h2 h3
    subst h1; subst h2; subst h3
    refine ⟨rfl, TestCampaign.campaignBody (Except.error e) (Except.ok lrs) th, rfl, ?_, rfl⟩
    have hv := (validate_counts [] lrs th).2.2.2.1
    simp only [TestCampaign.campaignBody, TestCampaign.phaseErrorI, TestCampaign.phaseErrorL,
      TestCampaign.phaseResultsI, TestCampaign.phaseResultsL, List.countP_append,
      List.nil_append, List.countP_cons, List.countP_nil, CampaignError.isIperfPhase]
    rw [hv]
    simp

/-- Witness for C5 at a concrete world with a failing iperf phase and a
one-result latency phase. -/
theorem claim_C5_witness :
    iperfFailWorld.startNetwork = Except.ok () ∧
    iperfFailWorld.iperfPhase = Except.error iperfBoom ∧
    iperfFailWorld.latencyPhase = Except.ok [sampleLatencyResult] ∧
    ((TestCampaign.run iperfFailWorld).latency_phase_ran = true ∧
     ∃ r : TestCampaign.CampaignResult,
       (TestCampaign.run iperfFailWorld).outcome = Except.ok r ∧
       r.errors.countP CampaignError.isIperfPhase = 1 ∧
       r.latency_results = [sampleLatencyResult]) :=
  ⟨rfl, rfl, rfl,
    (claim_C5 iperfFailWorld iperfBoom [sampleLatencyResult]).2 rfl rfl rfl⟩

/-- Claim C6: threshold validation is pure in (results, thresholds); a
latency violation is flagged per result iff rtt_mean_ms strictly exceeds
max_latency_ms, a loss violation iff packet_loss_percent strictly exceeds
max_packet_loss_percent, a throughput violation iff throughput_mbps is
strictly below min_throughput_mbps, all accumulated without
short-circuiting (counts agree with the counts of breaching results);
missing keys default to 50, 1.0 and 10; and the campaign passed flag is
true iff no violations and no phase errors were recorded. -/
theorem claim_C6 (ir : List IperfResult) (lr : List LatencyResult) (th : Thresholds)
    (io : Except Exn (List IperfResult)) (lo : Except Exn (List LatencyResult)) :
    ((TestCampaign.validate_thresholds ir lr th).2.countP CampaignError.isLatencyViolation
      = lr.countP (fun r => decide (th.max_latency_ms.getD 50 < r.rtt_mean_ms))) ∧
    ((TestCampaign.validate_thresholds ir lr th).2.countP CampaignError.isLossViolation
      = lr.countP (fun r => decide (th.max_packet_loss_percent.getD 1 < r.packet_loss_percent))) ∧
    ((TestCampaign.validate_thresholds ir lr th).2.countP CampaignError.isThroughputViolation
      = ir.countP (fun r => decide (r.throughput_mbps < th.min_throughput_mbps.getD 10))) ∧
    (TestCampaign.validate_thresholds ir lr
        { max_latency_ms := none, max_packet_loss_percent := none, min_throughput_mbps := none }
      = TestCampaign.validate_thresholds ir lr
        { max_latency_ms := some 50, max_packet_loss_percent := some 1,
          min_throughput_mbps := some 10 }) ∧
    ((TestCampaign.validate_thresholds ir lr th).1 = true
      ↔ (TestCampaign.validate_thresholds ir lr th).2 = []) ∧
    ((TestCampaign.campaignBody io lo th).passed = true
      ↔ ((TestCampaign.validate_thresholds (TestCampaign.phaseResultsI io)
            (TestCampaign.phaseResultsL lo) th).2 = [] ∧
          TestCampaign.phaseErrorI io = [] ∧ TestCampaign.phaseErrorL lo = [])) := by
  obtain ⟨v1, v2, v3, _, _⟩ := validate_counts ir lr th
  refine ⟨v1, v2, v3, rfl, ?_, ?_⟩
  · rw [validate_fst]
    exact List.isEmpty_iff
  · simp only [TestCampaign.campaignBody, validate_fst, Bool.and_eq_true, List.isEmpty_iff,
      List.append_eq_nil]
    constructor
    · rintro ⟨hv, ⟨hi, hl⟩, _⟩
      exact ⟨hv, hi, hl⟩
    · rintro ⟨hv, hi, hl⟩
      exact ⟨hv, ⟨hi, hl⟩, hv⟩

end NetAutoTest
